import Mathlib

/-
  Verification of the EGL platform binding (renderdoc/driver/gl/egl_platform.cpp).

  Shallow embedding: native handles (EGLDisplay, EGLContext, EGLSurface,
  module handles, function pointers) are represented as `Option Nat`, with
  `none` standing for the C null value. The dynamically loaded driver is
  modelled as a record of abstract behaviour functions; dependence of each
  C function on the driver is made explicit by passing the driver record.
  Observable side effects (driver calls and diagnostics) are collected in
  an explicit trace of events, so that properties such as "destroys the
  surface only if present" or "never issues the legacy request" become
  statements about the trace.
-/

namespace EGLPlat

/-- Observable events: foreign driver calls and diagnostic output. -/
inductive Event where
  | loadModule (name : String)
  | chooseConfigCall (attribs : List Nat)
  | createContextCall (attribs : List Nat)
  | createWindowSurfaceCall (window : Nat)
  | createPbufferSurfaceCall (attribs : List Nat)
  | destroySurfaceCall (dpy surf : Option Nat)
  | destroyContextCall (dpy ctx : Option Nat)
  | makeCurrentCall (dpy draw read ctx : Option Nat)
  | rdcerr (msg : String)
  | rdcwarn (msg : String)
  deriving DecidableEq, Repr

/-- True exactly on RDCWARN diagnostics. -/
def Event.isWarn : Event → Bool
  | Event.rdcwarn _ => true
  | _ => false

/- EGL constants, with their values from the EGL headers. -/

def EGL_PBUFFER_BIT : Nat := 0x0001
def EGL_WINDOW_BIT : Nat := 0x0004
def EGL_RED_SIZE : Nat := 0x3024
def EGL_GREEN_SIZE : Nat := 0x3023
def EGL_BLUE_SIZE : Nat := 0x3022
def EGL_RENDERABLE_TYPE : Nat := 0x3040
def EGL_OPENGL_ES3_BIT : Nat := 0x0040
def EGL_CONFORMANT : Nat := 0x3042
def EGL_SURFACE_TYPE : Nat := 0x3033
def EGL_COLOR_BUFFER_TYPE : Nat := 0x303F
def EGL_RGB_BUFFER : Nat := 0x308E
def EGL_NONE : Nat := 0x3038
def EGL_CONTEXT_MAJOR_VERSION_KHR : Nat := 0x3098
def EGL_CONTEXT_MINOR_VERSION_KHR : Nat := 0x30FB
def EGL_CONTEXT_FLAGS_KHR : Nat := 0x30FC
def EGL_CONTEXT_OPENGL_DEBUG_BIT_KHR : Nat := 0x0001
def EGL_CONTEXT_CLIENT_VERSION : Nat := 0x3098
def EGL_WIDTH : Nat := 0x3057
def EGL_HEIGHT : Nat := 0x3056
def EGL_DEFAULT_DISPLAY : Nat := 0

/-- Modelled from the spec: the `GLWindowingData` struct (ContextRecord) is
declared in gl_common.h, which is not part of this translation unit. Per the
spec it groups the {DisplayHandle, ContextHandle, SurfaceHandle} triple; in
the header `ctx` aliases `egl_ctx` and `wnd` aliases `egl_wnd` (anonymous
unions), so we keep only the `egl_` names. -/
structure GLWindowingData where
  egl_dpy : Option Nat
  egl_ctx : Option Nat
  egl_wnd : Option Nat
  deriving DecidableEq, Repr

/-- Modelled from the spec: the default-constructed / RDCEraseEl-zeroed
record, with every handle null. -/
def GLWindowingData.empty : GLWindowingData := ⟨none, none, none⟩

/- ------------------------------------------------------------------ -/
/- Symbol Resolution Table: GetEGLHandle and EGLDispatchTable::PopulateForReplay -/
/- ------------------------------------------------------------------ -/

/-- A symbol of the dispatch table: its name (without the egl prefix, as in
the C macro lists) and whether it is an extension (optional) symbol. -/
structure EGLSymbol where
  name : String
  isext : Bool
  deriving DecidableEq, Repr

/-- External collaborators of the symbol table: the process module loader
(Process::LoadModule / Process::GetFunctionAddress) and the driver generic
extension-query entry point (eglGetProcAddress) used for extension symbols. -/
structure LoaderEnv where
  loadModule : String → Option Nat
  getFunctionAddress : Option Nat → String → Option Nat
  getProcAddress : String → Option Nat

/-- GetEGLHandle (the non-Windows branch of egl_platform.cpp): load
libEGL.so, then fall back to libEGL.so.1. Every LoadModule call is traced. -/
def GetEGLHandle (env : LoaderEnv) : Option Nat × List Event :=
  match env.loadModule "libEGL.so" with
  | some h => (some h, [Event.loadModule "libEGL.so"])
  | none =>
      (env.loadModule "libEGL.so.1",
       [Event.loadModule "libEGL.so", Event.loadModule "libEGL.so.1"])

/-- The resolution of one table entry by the LOAD_FUNC macro body: if the
pointer is unbound, look the symbol up in the module; if still unbound and
the symbol is an extension, query it through eglGetProcAddress. -/
def resolveSym (env : LoaderEnv) (handle : Option Nat) (e : EGLSymbol × Option Nat) :
    EGLSymbol × Option Nat :=
  let p1 := if e.2.isNone then env.getFunctionAddress handle ("egl" ++ e.1.name) else e.2
  let p2 := if p1.isNone && e.1.isext then env.getProcAddress ("egl" ++ e.1.name) else p1
  (e.1, p2)

/-- A resolved entry satisfies the table invariant: extension symbols may be
null, mandatory symbols must be non-null. -/
def symOk (e : EGLSymbol × Option Nat) : Bool := e.1.isext || e.2.isSome

/-- One LOAD_FUNC expansion: resolve the entry; if a mandatory symbol is
still unbound, flip symbols_ok to false and emit one RDCWARN. -/
def loadFunc (env : LoaderEnv) (handle : Option Nat) (e : EGLSymbol × Option Nat) :
    (EGLSymbol × Option Nat) × Bool × List Event :=
  let r := resolveSym env handle e
  if symOk r then (r, true, []) else (r, false, [Event.rdcwarn r.1.name])

/-- The EGL_HOOKED_SYMBOLS / EGL_NONHOOKED_SYMBOLS expansion: apply
LOAD_FUNC to every entry of the table in order, conjoining the ok flags. -/
def populateSymbols (env : LoaderEnv) (handle : Option Nat) :
    List (EGLSymbol × Option Nat) → Bool × List (EGLSymbol × Option Nat) × List Event
  | [] => (true, [], [])
  | e :: rest =>
      let r := loadFunc env handle e
      let rr := populateSymbols env handle rest
      (r.2.1 && rr.1, r.1 :: rr.2.1, r.2.2 ++ rr.2.2)

/-- EGLDispatchTable::PopulateForReplay: load the module via GetEGLHandle
(unconditionally, on every call); fail outright if it cannot be loaded;
otherwise resolve every symbol best-effort and return the conjunction of
the per-symbol mandatory checks. -/
def PopulateForReplay (env : LoaderEnv) (table : List (EGLSymbol × Option Nat)) :
    Bool × List (EGLSymbol × Option Nat) × List Event :=
  let h := GetEGLHandle env
  match h.1 with
  | none => (false, table, h.2 ++ [Event.rdcerr "load libEGL"])
  | some x =>
      let r := populateSymbols env (some x) table
      (r.1, r.2.1, h.2 ++ r.2.2)

/- ------------------------------------------------------------------ -/
/- Context Binding: the EGLPlatform class -/
/- ------------------------------------------------------------------ -/

/-- The loaded EGL driver as seen through the dispatch table: the `has...`
flags say whether the corresponding function pointer is bound (non-null),
and the behaviour functions model what the native driver does when called.
`none` results model the native null / EGL_FALSE failure returns. -/
structure EGLDriver where
  hasMakeCurrent : Bool
  hasDestroySurface : Bool
  hasDestroyContext : Bool
  hasCreateContext : Bool
  hasChooseConfig : Bool
  hasCreatePbufferSurface : Bool
  getDisplay : Nat → Option Nat
  chooseConfig : Option Nat → List Nat → Option Nat
  createContext : Option Nat → Nat → Option Nat → List Nat → Option Nat
  createWindowSurface : Option Nat → Nat → Nat → Option Nat
  createPbufferSurface : Option Nat → Nat → List Nat → Option Nat
  makeCurrentOk : Option Nat → Option Nat → Option Nat → Option Nat → Bool
  querySurface : Option Nat → Option Nat → Nat → Option Int

/-- The configAttribs array of CreateWindowingData, parameterised by the
surfaceType value chosen from the window argument. -/
def configAttribs (surfaceType : Nat) : List Nat :=
  [EGL_RED_SIZE, 8, EGL_GREEN_SIZE, 8, EGL_BLUE_SIZE, 8,
   EGL_RENDERABLE_TYPE, EGL_OPENGL_ES3_BIT, EGL_CONFORMANT, EGL_OPENGL_ES3_BIT,
   EGL_SURFACE_TYPE, surfaceType, EGL_COLOR_BUFFER_TYPE, EGL_RGB_BUFFER, EGL_NONE]

/-- The verAttribs array: a versioned creation attempt requesting major,
minor and the debug-context flag. -/
def verAttribs (major minor : Nat) : List Nat :=
  [EGL_CONTEXT_MAJOR_VERSION_KHR, major, EGL_CONTEXT_MINOR_VERSION_KHR, minor,
   EGL_CONTEXT_FLAGS_KHR, EGL_CONTEXT_OPENGL_DEBUG_BIT_KHR, EGL_NONE]

/-- The baseAttribs array: the legacy single-integer client-version-3
request form, still requesting a debug context. -/
def baseAttribs : List Nat :=
  [EGL_CONTEXT_CLIENT_VERSION, 3, EGL_CONTEXT_FLAGS_KHR,
   EGL_CONTEXT_OPENGL_DEBUG_BIT_KHR, EGL_NONE]

/-- The pbAttribs array: the fixed 32 by 32 pbuffer surface request. -/
def pbAttribs : List Nat := [EGL_WIDTH, 32, EGL_HEIGHT, 32, EGL_NONE]

/-- The versions array of CreateWindowingData: the descending ladder. -/
def versions : List (Nat × Nat) := [(3, 2), (3, 1), (3, 0)]

/-- The creation loop of CreateWindowingData: walk the candidate list in
order, issue one CreateContext call per candidate, and stop (break) at the
first accepted attempt. -/
def tryVersionList (d : EGLDriver) (dpy : Option Nat) (config : Nat) (share : Option Nat) :
    List (Nat × Nat) → Option Nat × List Event
  | [] => (none, [])
  | v :: rest =>
      match d.createContext dpy config share (verAttribs v.1 v.2) with
      | some c => (some c, [Event.createContextCall (verAttribs v.1 v.2)])
      | none =>
          let r := tryVersionList d dpy config share rest
          (r.1, Event.createContextCall (verAttribs v.1 v.2) :: r.2)

/-- The context-creation stage of CreateWindowingData: walk the version
ladder; if every versioned attempt fails, retry once with the legacy
baseAttribs request. -/
def contextResult (d : EGLDriver) (eglDisplay : Option Nat) (config : Nat)
    (share_ctx : Option Nat) : Option Nat × List Event :=
  let r1 := tryVersionList d eglDisplay config share_ctx versions
  match r1.1 with
  | some c => (some c, r1.2)
  | none =>
      (d.createContext eglDisplay config share_ctx baseAttribs,
       r1.2 ++ [Event.createContextCall baseAttribs])

/-- EGLPlatform::CreateWindowingData: choose a config (pbuffer-typed when
window is 0, window-typed otherwise), walk the version ladder with the
legacy fallback (contextResult), then create the surface appropriate to
the window argument. Failures are reported via rdcerr events and leave the
corresponding handle null. -/
def CreateWindowingData (d : EGLDriver) (eglDisplay : Option Nat) (share_ctx : Option Nat)
    (window : Nat) : GLWindowingData × List Event :=
  let surfaceType := if window = 0 then EGL_PBUFFER_BIT else EGL_WINDOW_BIT
  let attribs := configAttribs surfaceType
  match d.chooseConfig eglDisplay attribs with
  | none =>
      (⟨eglDisplay, none, none⟩,
       [Event.chooseConfigCall attribs, Event.rdcerr "no suitable EGL config"])
  | some config =>
      let r2 := contextResult d eglDisplay config share_ctx
      match r2.1 with
      | none =>
          (⟨eglDisplay, none, none⟩,
           Event.chooseConfigCall attribs :: r2.2 ++ [Event.rdcerr "context creation failed"])
      | some c =>
          if window ≠ 0 then
            let s := d.createWindowSurface eglDisplay config window
            let ev := if s.isNone then [Event.rdcerr "surface for window"] else []
            (⟨eglDisplay, some c, s⟩,
             Event.chooseConfigCall attribs :: r2.2 ++
               [Event.createWindowSurfaceCall window] ++ ev)
          else
            let s := d.createPbufferSurface eglDisplay config pbAttribs
            let ev := if s.isNone then [Event.rdcerr "suitable PBuffer"] else []
            (⟨eglDisplay, some c, s⟩,
             Event.chooseConfigCall attribs :: r2.2 ++
               [Event.createPbufferSurfaceCall pbAttribs] ++ ev)

/-- EGLPlatform::MakeContext: guarded by the CreateContext, ChooseConfig and
CreatePbufferSurface pointers being bound; creates a window-less (window 0)
context sharing with the given record. In the C++ the unguarded branch
returns the default-constructed (all-null) record. -/
def MakeContext (d : EGLDriver) (share : GLWindowingData) : GLWindowingData × List Event :=
  if d.hasCreateContext && d.hasChooseConfig && d.hasCreatePbufferSurface then
    CreateWindowingData d share.egl_dpy share.egl_ctx 0
  else (GLWindowingData.empty, [])

/-- EGLPlatform::DeleteContext: destroy the surface only when the record
holds one (and the DestroySurface pointer is bound), and the context only
when the record holds one (and the DestroyContext pointer is bound). -/
def DeleteContext (d : EGLDriver) (context : GLWindowingData) : List Event :=
  (if context.egl_wnd.isSome && d.hasDestroySurface then
     [Event.destroySurfaceCall context.egl_dpy context.egl_wnd] else []) ++
  (if context.egl_ctx.isSome && d.hasDestroyContext then
     [Event.destroyContextCall context.egl_dpy context.egl_ctx] else [])

/-- EGLPlatform::DeleteReplayContext: when the DestroyContext pointer is
bound, clear the current binding and then destroy the surface and the
context of the record, with no null checks on the handles themselves. -/
def DeleteReplayContext (d : EGLDriver) (context : GLWindowingData) : List Event :=
  if d.hasDestroyContext then
    [Event.makeCurrentCall context.egl_dpy none none none,
     Event.destroySurfaceCall context.egl_dpy context.egl_wnd,
     Event.destroyContextCall context.egl_dpy context.egl_ctx]
  else []

/-- The calling thread ambient EGL binding as snapshotted by the code:
current display, current context, and current read surface. -/
structure ThreadState where
  cur_dpy : Option Nat
  cur_ctx : Option Nat
  cur_read : Option Nat
  deriving DecidableEq, Repr

/-- EGLPlatform::MakeContextCurrent: if the MakeCurrent pointer is bound,
call it with the record display, its surface as both draw and read surface,
and its context; the thread binding changes exactly when the driver accepts
(returns EGL_TRUE). Returns false when the pointer is unbound. -/
def MakeContextCurrent (d : EGLDriver) (st : ThreadState) (data : GLWindowingData) :
    Bool × ThreadState :=
  if d.hasMakeCurrent then
    if d.makeCurrentOk data.egl_dpy data.egl_wnd data.egl_wnd data.egl_ctx then
      (true, ⟨data.egl_dpy, data.egl_ctx, data.egl_wnd⟩)
    else (false, st)
  else (false, st)

/-- EGLPlatform::GetOutputWindowDimensions: snapshot the current
{display, context, read surface} triple into oldContext, switch to the
target record, query EGL_WIDTH and EGL_HEIGHT (on failure the out values
are left as passed in and one RDCWARN is emitted), then switch back to the
snapshot. Returns the final thread state, the two dimension values and the
diagnostic trace. -/
def GetOutputWindowDimensions (d : EGLDriver) (st : ThreadState)
    (context : GLWindowingData) (w h : Int) : ThreadState × Int × Int × List Event :=
  let oldContext : GLWindowingData := ⟨st.cur_dpy, st.cur_ctx, st.cur_read⟩
  let r1 := MakeContextCurrent d st context
  let wq := d.querySurface context.egl_dpy context.egl_wnd EGL_WIDTH
  let hq := d.querySurface context.egl_dpy context.egl_wnd EGL_HEIGHT
  let w2 := match wq with | some x => x | none => w
  let h2 := match hq with | some x => x | none => h
  let ev := if wq.isNone || hq.isNone then [Event.rdcwarn "surface size query"] else []
  let r2 := MakeContextCurrent d r1.2 oldContext
  (r2.2, w2, h2, ev)

/-- Modelled from the spec: the build platform of the translation unit; the
RDOC_WIN32 / RDOC_ANDROID / RDOC_LINUX preprocessor switches select which
case of the window-system switch is compiled in. -/
inductive BuildPlatform where
  | win32
  | android
  | linux
  deriving DecidableEq, Repr

/-- Modelled from the spec: the WindowingSystem tag of the external
WindowingData descriptor, a closed variant over the Win32, X11 and Android
window handles plus Unknown (headless); XCB stands for a tag outside the
set this binding supports. -/
inductive WindowingSystem where
  | Unknown
  | Win32
  | Xlib
  | XCB
  | Android
  deriving DecidableEq, Repr

/-- Modelled from the spec: the WindowingData descriptor, read-only input
holding the tag and the per-system native window handles. -/
structure WindowingData where
  system : WindowingSystem
  win32_window : Nat
  xlib_window : Nat
  android_window : Nat
  deriving DecidableEq, Repr

/-- The switch at the top of EGLPlatform::MakeOutputWindow: pick the native
window handle for the tag compiled in for the build platform; Unknown keeps
the null (0) handle with no diagnostic; any other tag not compiled in hits
the default arm and reports an RDCERR. -/
def adaptWindow (p : BuildPlatform) (w : WindowingData) : Nat × List Event :=
  match p, w.system with
  | BuildPlatform.win32, WindowingSystem.Win32 => (w.win32_window, [])
  | BuildPlatform.android, WindowingSystem.Android => (w.android_window, [])
  | BuildPlatform.linux, WindowingSystem.Xlib => (w.xlib_window, [])
  | _, WindowingSystem.Unknown => (0, [])
  | _, _ => (0, [Event.rdcerr "unexpected window system"])

/-- EGLPlatform::MakeOutputWindow: adapt the descriptor to a native window
handle, fetch the default display, and create the windowing data against it
(the depth argument is unused by the EGL binding, as in the C++). -/
def MakeOutputWindow (p : BuildPlatform) (d : EGLDriver) (window : WindowingData)
    (depth : Bool) (share_context : GLWindowingData) : GLWindowingData × List Event :=
  let a := adaptWindow p window
  let eglDisplay := d.getDisplay EGL_DEFAULT_DISPLAY
  let r := CreateWindowingData d eglDisplay share_context.egl_ctx a.1
  (r.1, a.2 ++ r.2)

/-- The ReplayStatus values InitialiseAPI can return. -/
inductive ReplayStatus where
  | Succeeded
  | APIInitFailed
  | APIHardwareUnsupported
  deriving DecidableEq, Repr

/-- EGLPlatform::InitialiseAPI: bind the ES API, open the default display
(failing with APIInitFailed if null), build the replay context via
MakeContext, and on a record missing its context or its surface destroy
whatever was created, zero the out record (RDCEraseEl) and report
APIHardwareUnsupported. The out parameter is modelled by passing its prior
value in and returning its final value. -/
def InitialiseAPI (d : EGLDriver) (replayContext : GLWindowingData) :
    ReplayStatus × GLWindowingData × List Event :=
  match d.getDisplay EGL_DEFAULT_DISPLAY with
  | none =>
      (ReplayStatus.APIInitFailed, replayContext, [Event.rdcerr "default EGL display"])
  | some dpy =>
      let base : GLWindowingData := ⟨some dpy, none, none⟩
      let r := MakeContext d base
      if r.1.egl_ctx.isNone || r.1.egl_wnd.isNone then
        (ReplayStatus.APIHardwareUnsupported, GLWindowingData.empty,
         r.2 ++ [Event.rdcerr "ES replay context required"] ++ DeleteContext d r.1)
      else (ReplayStatus.Succeeded, r.1, r.2)

/-- The context-creation attempts of a trace, in order: the attribute lists
passed to CreateContext. -/
def ctxAttempts (tr : List Event) : List (List Nat) :=
  tr.filterMap fun e =>
    match e with
    | Event.createContextCall a => some a
    | _ => none

/-- True when the trace holds at least one RDCERR diagnostic. -/
def hasErr (tr : List Event) : Bool :=
  tr.any fun e =>
    match e with
    | Event.rdcerr _ => true
    | _ => false

/-- The tags the window-system switch handles for a build platform without
hitting the default (error) arm: the own tag of the platform and Unknown. -/
def supportedTag (p : BuildPlatform) (s : WindowingSystem) : Bool :=
  match p, s with
  | _, WindowingSystem.Unknown => true
  | BuildPlatform.win32, WindowingSystem.Win32 => true
  | BuildPlatform.android, WindowingSystem.Android => true
  | BuildPlatform.linux, WindowingSystem.Xlib => true
  | _, _ => false

/- ------------------------------------------------------------------ -/
/- Theorems -/
/- ------------------------------------------------------------------ -/

/-- Claim C4: GetOutputWindowDimensions restores the ambient active binding:
for every prior active {context, display, read-surface} triple and every
target record, the thread binding after the call equals the binding before
the call, on the path where both surface queries succeed and on the path
where either fails (the driver querySurface behaviour is universally
quantified, covering both). The only assumption is that the driver accepts
re-binding the snapshotted previously-current triple. -/
theorem getOutputWindowDimensions_restores_binding (d : EGLDriver) (st : ThreadState)
    (context : GLWindowingData) (w h : Int)
    (hrestore : d.makeCurrentOk st.cur_dpy st.cur_read st.cur_read st.cur_ctx = true) :
    (GetOutputWindowDimensions d st context w h).1 = st := by
  simp only [GetOutputWindowDimensions, MakeContextCurrent]
  cases hmc : d.hasMakeCurrent
  · simp
  · cases hok : d.makeCurrentOk context.egl_dpy context.egl_wnd context.egl_wnd context.egl_ctx
    · simp [hrestore]
    · simp [hrestore]

/-- A concrete driver accepting everything, used to evaluate theorems with
hypotheses on explicit inputs. -/
def okDriver : EGLDriver where
  hasMakeCurrent := true
  hasDestroySurface := true
  hasDestroyContext := true
  hasCreateContext := true
  hasChooseConfig := true
  hasCreatePbufferSurface := true
  getDisplay := fun _ => some 1
  chooseConfig := fun _ _ => some 2
  createContext := fun _ _ _ _ => some 7
  createWindowSurface := fun _ _ w => some (100 + w)
  createPbufferSurface := fun _ _ _ => some 9
  makeCurrentOk := fun _ _ _ _ => true
  querySurface := fun _ _ _ => none

/-- Witness for C4: on a concrete driver, thread state and target record the
restore hypothesis holds and the final thread state equals the initial one. -/
theorem getOutputWindowDimensions_restores_binding_witness :
    okDriver.makeCurrentOk (some 3) (some 5) (some 5) (some 4) = true ∧
    (GetOutputWindowDimensions okDriver ⟨some 3, some 4, some 5⟩
      ⟨some 1, some 7, some 9⟩ 0 0).1 = ⟨some 3, some 4, some 5⟩ :=
  ⟨rfl, getOutputWindowDimensions_restores_binding okDriver ⟨some 3, some 4, some 5⟩
    ⟨some 1, some 7, some 9⟩ 0 0 rfl⟩

/-- Counterexample for claim C5: the claim asserts no driver call is made on
a null handle by DeleteReplayContext; on a record with a null surface and a
null context (display bound, all dispatch pointers bound) DeleteReplayContext
still issues DestroySurface and DestroyContext with the null handles. -/
theorem deleteReplayContext_null_handle_cex :
    Event.destroySurfaceCall (some 1) none ∈
      DeleteReplayContext okDriver ⟨some 1, none, none⟩ ∧
    Event.destroyContextCall (some 1) none ∈
      DeleteReplayContext okDriver ⟨some 1, none, none⟩ := by
  decide

/-- Claim C5 (amended): DeleteContext is safe on partially-null records: it
never issues a destroy call carrying a null handle, destroying the surface
only if present and the context only if present, independently.
DeleteReplayContext however guards only on the DestroyContext pointer: when
that pointer is unbound it makes no driver call at all, and when it is
bound it unconditionally clears the current binding and issues
DestroySurface and DestroyContext with whatever handles the record holds,
including null ones. -/
theorem deleteContext_guarded_deleteReplayContext_unguarded
    (d : EGLDriver) (rec : GLWindowingData) :
    (∀ dp, Event.destroySurfaceCall dp none ∉ DeleteContext d rec) ∧
    (∀ dp, Event.destroyContextCall dp none ∉ DeleteContext d rec) ∧
    (rec.egl_wnd = none → ∀ dp s, Event.destroySurfaceCall dp s ∉ DeleteContext d rec) ∧
    (rec.egl_ctx = none → ∀ dp c, Event.destroyContextCall dp c ∉ DeleteContext d rec) ∧
    (d.hasDestroyContext = false → DeleteReplayContext d rec = []) ∧
    (d.hasDestroyContext = true →
      DeleteReplayContext d rec =
        [Event.makeCurrentCall rec.egl_dpy none none none,
         Event.destroySurfaceCall rec.egl_dpy rec.egl_wnd,
         Event.destroyContextCall rec.egl_dpy rec.egl_ctx]) := by
  obtain ⟨dpy, ctx, wnd⟩ := rec
  refine ⟨?_, ?_, ?_, ?_, ?_, ?_⟩
  · intro dp
    cases wnd <;> cases ctx <;> simp [DeleteContext]
  · intro dp
    cases wnd <;> cases ctx <;> simp [DeleteContext]
  · intro hw dp s
    cases hw
    cases ctx <;> simp [DeleteContext]
  · intro hc dp c
    cases hc
    cases wnd <;> simp [DeleteContext]
  · intro hdc
    simp [DeleteReplayContext, hdc]
  · intro hdc
    simp [DeleteReplayContext, hdc]

/-- Witness for the amended C5: the amended statement evaluated on a record
with a null surface and a bound context under the all-bound driver. -/
theorem deleteContext_guarded_deleteReplayContext_unguarded_witness :
    (∀ dp, Event.destroySurfaceCall dp none ∉
      DeleteContext okDriver ⟨some 1, some 2, none⟩) ∧
    (∀ dp, Event.destroyContextCall dp none ∉
      DeleteContext okDriver ⟨some 1, some 2, none⟩) ∧
    ((some 2 : Option Nat) = none → ∀ dp c, Event.destroyContextCall dp c ∉
      DeleteContext okDriver ⟨some 1, some 2, none⟩) ∧
    (okDriver.hasDestroyContext = true →
      DeleteReplayContext okDriver ⟨some 1, some 2, none⟩ =
        [Event.makeCurrentCall (some 1) none none none,
         Event.destroySurfaceCall (some 1) none,
         Event.destroyContextCall (some 1) (some 2)]) := by
  have h := deleteContext_guarded_deleteReplayContext_unguarded okDriver ⟨some 1, some 2, none⟩
  exact ⟨h.1, h.2.1, h.2.2.2.1, fun _ => h.2.2.2.2.2 rfl⟩

/-- Claim C8: in the MakeOutputWindow windowing-descriptor adaptation the
Unknown tag never takes the error path (it proceeds with the null window
handle 0 and no diagnostic), a tag takes the error-reporting path exactly
when it is outside the closed supported set of the build platform, and in
every case creation still proceeds against the default display with the
adapted handle. -/
theorem makeOutputWindow_unknown_tag_and_error_paths
    (p : BuildPlatform) (d : EGLDriver) (s : WindowingSystem) (a b c : Nat)
    (depth : Bool) (share : GLWindowingData) :
    (adaptWindow p ⟨WindowingSystem.Unknown, a, b, c⟩ = (0, [])) ∧
    (hasErr (adaptWindow p ⟨s, a, b, c⟩).2 = !supportedTag p s) ∧
    ((MakeOutputWindow p d ⟨s, a, b, c⟩ depth share).1 =
      (CreateWindowingData d (d.getDisplay EGL_DEFAULT_DISPLAY) share.egl_ctx
        (adaptWindow p ⟨s, a, b, c⟩).1).1) ∧
    ((MakeOutputWindow p d ⟨s, a, b, c⟩ depth share).2 =
      (adaptWindow p ⟨s, a, b, c⟩).2 ++
      (CreateWindowingData d (d.getDisplay EGL_DEFAULT_DISPLAY) share.egl_ctx
        (adaptWindow p ⟨s, a, b, c⟩).1).2) := by
  refine ⟨?_, ?_, rfl, rfl⟩
  · cases p <;> rfl
  · cases p <;> cases s <;> rfl

/-- A table entry is resolved as much as LOAD_FUNC can: symOk says whether
it satisfies the mandatory check after resolution. -/
theorem symOk_iff (x : EGLSymbol × Option Nat) :
    symOk x = true ↔ (x.1.isext = false → x.2.isSome = true) := by
  cases hx : x.1.isext <;> simp [symOk, hx]

/-- Failing the mandatory check is being a mandatory symbol with a null
pointer. -/
theorem not_symOk_eq (x : EGLSymbol × Option Nat) :
    (!symOk x) = (!x.1.isext && x.2.isNone) := by
  cases hx : x.1.isext <;> cases h2 : x.2 <;> simp [symOk, hx, h2]

/-- Resolution does not change the symbol descriptor of an entry, only its
pointer. -/
theorem resolveSym_fst (env : LoaderEnv) (handle : Option Nat)
    (e : EGLSymbol × Option Nat) : (resolveSym env handle e).1 = e.1 := rfl

/-- Characterisation of the LOAD_FUNC fold: the ok flag is the conjunction
of the per-entry mandatory checks, the final table is the pointwise
resolution of the input table, and the diagnostics are one RDCWARN per
entry failing the mandatory check. -/
theorem populateSymbols_spec (env : LoaderEnv) (handle : Option Nat)
    (table : List (EGLSymbol × Option Nat)) :
    populateSymbols env handle table =
      (table.all fun e => symOk (resolveSym env handle e),
       table.map (resolveSym env handle),
       (table.filter fun e => !symOk (resolveSym env handle e)).map
         fun e => Event.rdcwarn e.1.name) := by
  induction table with
  | nil => rfl
  | cons e rest ih =>
      simp only [populateSymbols, loadFunc, ih, List.all_cons, List.map_cons,
        List.filter_cons]
      cases h : symOk (resolveSym env handle e) <;> simp [h, resolveSym_fst]

/-- The module-load trace of GetEGLHandle holds no RDCWARN diagnostics. -/
theorem getEGLHandle_no_warn (env : LoaderEnv) :
    (GetEGLHandle env).2.countP Event.isWarn = 0 := by
  unfold GetEGLHandle
  cases env.loadModule "libEGL.so" <;> rfl

/-- PopulateForReplay, on a successfully loaded module, in closed form. -/
theorem populateForReplay_eq (env : LoaderEnv)
    (table : List (EGLSymbol × Option Nat)) (h : Nat)
    (hload : (GetEGLHandle env).1 = some h) :
    PopulateForReplay env table =
      (table.all (fun e => symOk (resolveSym env (some h) e)),
       table.map (resolveSym env (some h)),
       (GetEGLHandle env).2 ++
         (table.filter fun e => !symOk (resolveSym env (some h) e)).map
           (fun e => Event.rdcwarn e.1.name)) := by
  unfold PopulateForReplay
  rcases hg : GetEGLHandle env with ⟨hh, tr⟩
  rw [hg] at hload
  have hh2 : hh = some h := hload
  subst hh2
  simp only [populateSymbols_spec]

/-- Claim C2: provided the driver module loads, PopulateForReplay resolves
every symbol of the table best-effort (the final table is the pointwise
resolution of the input, independent of any failures along the way), it
returns true if and only if every mandatory (non-extension) symbol ended
non-null, and the diagnostics hold exactly one RDCWARN per unresolved
mandatory symbol. -/
theorem populateForReplay_mandatory_iff (env : LoaderEnv)
    (table : List (EGLSymbol × Option Nat)) (h : Nat)
    (hload : (GetEGLHandle env).1 = some h) :
    (PopulateForReplay env table).2.1 = table.map (resolveSym env (some h)) ∧
    ((PopulateForReplay env table).1 = true ↔
      ∀ e ∈ (PopulateForReplay env table).2.1, e.1.isext = false → e.2.isSome = true) ∧
    (PopulateForReplay env table).2.2.countP Event.isWarn =
      ((PopulateForReplay env table).2.1.filter
        fun e => !e.1.isext && e.2.isNone).length := by
  rw [populateForReplay_eq env table h hload]
  refine ⟨rfl, ?_, ?_⟩
  · show table.all (fun e => symOk (resolveSym env (some h) e)) = true ↔
      ∀ e ∈ table.map (resolveSym env (some h)), e.1.isext = false → e.2.isSome = true
    simp only [List.all_eq_true]
    constructor
    · intro hall e he
      rcases List.mem_map.mp he with ⟨x, hx, hex⟩
      subst hex
      exact (symOk_iff _).mp (hall x hx)
    · intro hall x hx
      exact (symOk_iff _).mpr (hall (resolveSym env (some h) x) (List.mem_map_of_mem _ hx))
  · show ((GetEGLHandle env).2 ++
        (table.filter fun e => !symOk (resolveSym env (some h) e)).map
          (fun e => Event.rdcwarn e.1.name)).countP Event.isWarn =
      ((table.map (resolveSym env (some h))).filter
        fun e => !e.1.isext && e.2.isNone).length
    rw [List.countP_append, getEGLHandle_no_warn, Nat.zero_add, List.countP_map]
    have hlen : List.countP
        (Event.isWarn ∘ fun e : EGLSymbol × Option Nat => Event.rdcwarn e.1.name)
        (List.filter (fun e => !symOk (resolveSym env (some h) e)) table) =
        (List.filter (fun e => !symOk (resolveSym env (some h) e)) table).length :=
      List.countP_eq_length.mpr (fun a _ => rfl)
    have hpred : ∀ e ∈ table, (!symOk (resolveSym env (some h) e)) =
        ((fun x : EGLSymbol × Option Nat => !x.1.isext && x.2.isNone) ∘
          resolveSym env (some h)) e := by
      intro e _
      simp [not_symOk_eq, Function.comp]
    rw [hlen, List.filter_map, List.length_map, List.filter_congr hpred]

/-- A concrete loader environment where the module and every symbol lookup
succeed. -/
def cexLoader : LoaderEnv where
  loadModule := fun _ => some 1
  getFunctionAddress := fun _ _ => some 2
  getProcAddress := fun _ => some 3

/-- A concrete one-entry dispatch-table state in which every symbol is
already bound. -/
def boundTable : List (EGLSymbol × Option Nat) := [(⟨"GetDisplay", false⟩, some 4)]

/-- A concrete two-entry table with a mandatory and an extension symbol,
both unbound. -/
def freshTable : List (EGLSymbol × Option Nat) :=
  [(⟨"GetDisplay", false⟩, none), (⟨"GetProcAddress", true⟩, none)]

/-- Witness for C2: the theorem applied to the concrete loader and the
concrete unbound table, whose module load succeeds with handle 1. -/
theorem populateForReplay_mandatory_iff_witness :
    (GetEGLHandle cexLoader).1 = some 1 ∧
    ((PopulateForReplay cexLoader freshTable).2.1 =
        freshTable.map (resolveSym cexLoader (some 1)) ∧
      ((PopulateForReplay cexLoader freshTable).1 = true ↔
        ∀ e ∈ (PopulateForReplay cexLoader freshTable).2.1,
          e.1.isext = false → e.2.isSome = true) ∧
      (PopulateForReplay cexLoader freshTable).2.2.countP Event.isWarn =
        ((PopulateForReplay cexLoader freshTable).2.1.filter
          fun e => !e.1.isext && e.2.isNone).length) :=
  ⟨by decide, populateForReplay_mandatory_iff cexLoader freshTable 1 (by decide)⟩

/-- Counterexample for claim C3: a dispatch-table state in which every
symbol is already bound, on which a repeated PopulateForReplay does return
true and leaves the table unchanged, yet still performs a module-load
operation (a LoadModule call appears in its trace), refuting the claim that
no module-load operation is performed. -/
theorem populateForReplay_reloads_module_cex :
    (∀ e ∈ boundTable, (e : EGLSymbol × Option Nat).2 ≠ none) ∧
    (PopulateForReplay cexLoader boundTable).1 = true ∧
    (PopulateForReplay cexLoader boundTable).2.1 = boundTable ∧
    Event.loadModule "libEGL.so" ∈ (PopulateForReplay cexLoader boundTable).2.2 := by
  decide

/-- Resolution leaves an already-bound entry untouched. -/
theorem resolveSym_bound (env : LoaderEnv) (handle : Option Nat)
    (e : EGLSymbol × Option Nat) (he : e.2 ≠ none) :
    resolveSym env handle e = e ∧ symOk e = true := by
  rcases e with ⟨s, p⟩
  cases p with
  | none => exact absurd rfl he
  | some v => exact ⟨by simp [resolveSym], by simp [symOk]⟩

/-- Claim C3 (amended): calling PopulateForReplay again on a table in which
every symbol is already bound re-confirms the bound pointers: it returns
true and leaves every pointer unchanged (provided the module loads, as it
must have for the first call to succeed). It is however not free of
module-load operations: GetEGLHandle runs again on every call, so the
repeated call still performs the LoadModule lookup (see the
counterexample); the no-op is with respect to the table, not the loader. -/
theorem populateForReplay_rebind_noop (env : LoaderEnv)
    (table : List (EGLSymbol × Option Nat)) (h : Nat)
    (hload : (GetEGLHandle env).1 = some h)
    (hAll : ∀ e ∈ table, (e : EGLSymbol × Option Nat).2 ≠ none) :
    (PopulateForReplay env table).1 = true ∧
    (PopulateForReplay env table).2.1 = table := by
  rw [populateForReplay_eq env table h hload]
  constructor
  · show table.all (fun e => symOk (resolveSym env (some h) e)) = true
    simp only [List.all_eq_true]
    intro e he
    rcases resolveSym_bound env (some h) e (hAll e he) with ⟨h1, h2⟩
    rw [h1]
    exact h2
  · show table.map (resolveSym env (some h)) = table
    have hid : ∀ e ∈ table, resolveSym env (some h) e = id e :=
      fun e he => (resolveSym_bound env (some h) e (hAll e he)).1
    rw [List.map_congr_left hid, List.map_id]

/-- Witness for the amended C3: the amended statement evaluated on the
concrete loader and the concrete fully-bound table. -/
theorem populateForReplay_rebind_noop_witness :
    (GetEGLHandle cexLoader).1 = some 1 ∧
    (∀ e ∈ boundTable, (e : EGLSymbol × Option Nat).2 ≠ none) ∧
    ((PopulateForReplay cexLoader boundTable).1 = true ∧
      (PopulateForReplay cexLoader boundTable).2.1 = boundTable) :=
  ⟨by decide, by decide,
    populateForReplay_rebind_noop cexLoader boundTable 1 (by decide) (by decide)⟩

/- Helper lemmas about the creation path. -/

/-- A CreateContext attempt recorded in a trace is one of its ctxAttempts. -/
theorem mem_ctxAttempts (tr : List Event) (a : List Nat)
    (h : Event.createContextCall a ∈ tr) : a ∈ ctxAttempts tr := by
  simp only [ctxAttempts, List.mem_filterMap]
  exact ⟨Event.createContextCall a, h, rfl⟩

/-- The version ladder when the first attempt fails and the second is
accepted: exactly two attempts, in descending order, and the accepted
context is the second attempt result. -/
theorem tryVersionList_second (d : EGLDriver) (dpy share : Option Nat) (cfg c : Nat)
    (h32 : d.createContext dpy cfg share (verAttribs 3 2) = none)
    (h31 : d.createContext dpy cfg share (verAttribs 3 1) = some c) :
    tryVersionList d dpy cfg share versions =
      (some c, [Event.createContextCall (verAttribs 3 2),
                Event.createContextCall (verAttribs 3 1)]) := by
  simp [versions, tryVersionList, h32, h31]

/-- The version ladder when every versioned attempt fails: three attempts,
in descending order, no context. -/
theorem tryVersionList_allfail (d : EGLDriver) (dpy share : Option Nat) (cfg : Nat)
    (h32 : d.createContext dpy cfg share (verAttribs 3 2) = none)
    (h31 : d.createContext dpy cfg share (verAttribs 3 1) = none)
    (h30 : d.createContext dpy cfg share (verAttribs 3 0) = none) :
    tryVersionList d dpy cfg share versions =
      (none, [Event.createContextCall (verAttribs 3 2),
              Event.createContextCall (verAttribs 3 1),
              Event.createContextCall (verAttribs 3 0)]) := by
  simp [versions, tryVersionList, h32, h31, h30]

/-- Every branch of CreateWindowingData copies the display argument into
the record. -/
theorem createWindowingData_dpy (d : EGLDriver) (dpy share : Option Nat) (window : Nat) :
    (CreateWindowingData d dpy share window).1.egl_dpy = dpy := by
  simp only [CreateWindowingData]
  split
  · rfl
  · split
    · rfl
    · split <;> rfl

/-- A non-null context in the CreateWindowingData record means config
selection succeeded and the context stage produced that context. -/
theorem createWindowingData_inv (d : EGLDriver) (dpy share : Option Nat) (window c : Nat)
    (hctx : (CreateWindowingData d dpy share window).1.egl_ctx = some c) :
    ∃ cfg, d.chooseConfig dpy
        (configAttribs (if window = 0 then EGL_PBUFFER_BIT else EGL_WINDOW_BIT)) = some cfg ∧
      (contextResult d dpy cfg share).1 = some c := by
  simp only [CreateWindowingData] at hctx
  split at hctx
  · simp at hctx
  · rename_i cfg hcc
    split at hctx
    · simp at hctx
    · rename_i c2 hr
      refine ⟨cfg, hcc, ?_⟩
      rw [hr]
      split at hctx <;> simp at hctx <;> rw [hctx]

/-- CreateWindowingData in closed form on the window-surface path, once a
config and a context have been obtained. -/
theorem createWindowingData_eq_window (d : EGLDriver) (dpy share : Option Nat)
    (window cfg c : Nat) (hw : window ≠ 0)
    (hcc : d.chooseConfig dpy (configAttribs EGL_WINDOW_BIT) = some cfg)
    (hcr : (contextResult d dpy cfg share).1 = some c) :
    CreateWindowingData d dpy share window =
      (⟨dpy, some c, d.createWindowSurface dpy cfg window⟩,
       Event.chooseConfigCall (configAttribs EGL_WINDOW_BIT) ::
         (contextResult d dpy cfg share).2 ++
         [Event.createWindowSurfaceCall window] ++
         (if (d.createWindowSurface dpy cfg window).isNone then
            [Event.rdcerr "surface for window"] else [])) := by
  simp [CreateWindowingData, hw, hcc, hcr]

/-- CreateWindowingData in closed form on the pbuffer path (window 0), once
a config and a context have been obtained. -/
theorem createWindowingData_eq_pbuffer (d : EGLDriver) (dpy share : Option Nat)
    (cfg c : Nat)
    (hcc : d.chooseConfig dpy (configAttribs EGL_PBUFFER_BIT) = some cfg)
    (hcr : (contextResult d dpy cfg share).1 = some c) :
    CreateWindowingData d dpy share 0 =
      (⟨dpy, some c, d.createPbufferSurface dpy cfg pbAttribs⟩,
       Event.chooseConfigCall (configAttribs EGL_PBUFFER_BIT) ::
         (contextResult d dpy cfg share).2 ++
         [Event.createPbufferSurfaceCall pbAttribs] ++
         (if (d.createPbufferSurface dpy cfg pbAttribs).isNone then
            [Event.rdcerr "suitable PBuffer"] else [])) := by
  simp [CreateWindowingData, hcc, hcr]

/-- Claim C1: with a driver that rejects the (3,2) attempt and accepts the
(3,1) attempt, CreateWindowingData walks the ladder in descending order and
stops at the acceptance: exactly the (3,2) and (3,1) attempts are issued,
in that order, each carrying the debug-context flag, the resulting record
holds the context produced by the (3,1) attempt, and the legacy
EGL_CONTEXT_CLIENT_VERSION form is never issued. -/
theorem createWindowingData_version_ladder (d : EGLDriver) (dpy share : Option Nat)
    (window cfg c : Nat)
    (hcc : d.chooseConfig dpy
      (configAttribs (if window = 0 then EGL_PBUFFER_BIT else EGL_WINDOW_BIT)) = some cfg)
    (h32 : d.createContext dpy cfg share (verAttribs 3 2) = none)
    (h31 : d.createContext dpy cfg share (verAttribs 3 1) = some c) :
    (CreateWindowingData d dpy share window).1.egl_ctx = some c ∧
    ctxAttempts (CreateWindowingData d dpy share window).2 =
      [verAttribs 3 2, verAttribs 3 1] ∧
    Event.createContextCall baseAttribs ∉ (CreateWindowingData d dpy share window).2 ∧
    ∀ a ∈ ctxAttempts (CreateWindowingData d dpy share window).2,
      EGL_CONTEXT_FLAGS_KHR ∈ a ∧ EGL_CONTEXT_OPENGL_DEBUG_BIT_KHR ∈ a := by
  have hcr : contextResult d dpy cfg share =
      (some c, [Event.createContextCall (verAttribs 3 2),
                Event.createContextCall (verAttribs 3 1)]) := by
    unfold contextResult
    rw [tryVersionList_second d dpy share cfg c h32 h31]
  have hmain : CreateWindowingData d dpy share window =
      (⟨dpy, some c,
        if window = 0 then d.createPbufferSurface dpy cfg pbAttribs
        else d.createWindowSurface dpy cfg window⟩,
       Event.chooseConfigCall
           (configAttribs (if window = 0 then EGL_PBUFFER_BIT else EGL_WINDOW_BIT)) ::
         (contextResult d dpy cfg share).2 ++
         (if window = 0 then
            [Event.createPbufferSurfaceCall pbAttribs] ++
              (if (d.createPbufferSurface dpy cfg pbAttribs).isNone then
                [Event.rdcerr "suitable PBuffer"] else [])
          else
            [Event.createWindowSurfaceCall window] ++
              (if (d.createWindowSurface dpy cfg window).isNone then
                [Event.rdcerr "surface for window"] else []))) := by
    by_cases hw : window = 0
    · subst hw
      rw [createWindowingData_eq_pbuffer d dpy share cfg c (by simpa using hcc)
        (by rw [hcr])]
      simp
    · rw [createWindowingData_eq_window d dpy share window cfg c hw
        (by rw [if_neg hw] at hcc; exact hcc) (by rw [hcr])]
      simp [hw, List.append_assoc]
  have hatt : ctxAttempts (CreateWindowingData d dpy share window).2 =
      [verAttribs 3 2, verAttribs 3 1] := by
    rw [hmain, hcr]
    by_cases hw : window = 0
    · cases hs : (d.createPbufferSurface dpy cfg pbAttribs).isNone <;>
        simp [ctxAttempts, hw, hs]
    · cases hs : (d.createWindowSurface dpy cfg window).isNone <;>
        simp [ctxAttempts, hw, hs]
  refine ⟨by rw [hmain], hatt, ?_, ?_⟩
  · intro hmem
    have h2 := mem_ctxAttempts _ _ hmem
    rw [hatt] at h2
    revert h2
    decide
  · intro a ha
    rw [hatt] at ha
    have h2 : a = verAttribs 3 2 ∨ a = verAttribs 3 1 := by simpa using ha
    rcases h2 with h2 | h2 <;> subst h2 <;> decide

/-- A concrete driver that rejects the (3,2) attempt and accepts the (3,1)
attempt with context handle 7. -/
def ladderDriver : EGLDriver where
  hasMakeCurrent := true
  hasDestroySurface := true
  hasDestroyContext := true
  hasCreateContext := true
  hasChooseConfig := true
  hasCreatePbufferSurface := true
  getDisplay := fun _ => some 1
  chooseConfig := fun _ _ => some 2
  createContext := fun _ _ _ a =>
    if a = verAttribs 3 2 then none else if a = verAttribs 3 1 then some 7 else none
  createWindowSurface := fun _ _ w => some (100 + w)
  createPbufferSurface := fun _ _ _ => some 9
  makeCurrentOk := fun _ _ _ _ => true
  querySurface := fun _ _ _ => none

/-- Witness for C1: the ladder theorem evaluated on the concrete driver
that rejects (3,2) and accepts (3,1), for a window target. -/
theorem createWindowingData_version_ladder_witness :
    ladderDriver.chooseConfig (some 1)
      (configAttribs (if (5 : Nat) = 0 then EGL_PBUFFER_BIT else EGL_WINDOW_BIT)) = some 2 ∧
    ladderDriver.createContext (some 1) 2 none (verAttribs 3 2) = none ∧
    ladderDriver.createContext (some 1) 2 none (verAttribs 3 1) = some 7 ∧
    ((CreateWindowingData ladderDriver (some 1) none 5).1.egl_ctx = some 7 ∧
     ctxAttempts (CreateWindowingData ladderDriver (some 1) none 5).2 =
       [verAttribs 3 2, verAttribs 3 1] ∧
     Event.createContextCall baseAttribs ∉ (CreateWindowingData ladderDriver (some 1) none 5).2 ∧
     ∀ a ∈ ctxAttempts (CreateWindowingData ladderDriver (some 1) none 5).2,
       EGL_CONTEXT_FLAGS_KHR ∈ a ∧ EGL_CONTEXT_OPENGL_DEBUG_BIT_KHR ∈ a) :=
  ⟨by decide, by decide, by decide,
   createWindowingData_version_ladder ladderDriver (some 1) none 5 2 7
     (by decide) (by decide) (by decide)⟩

/-- Claim C6: with a display that opens, the creation pointers bound, a
config chosen, and a driver that rejects all three versioned attempts and
the legacy attempt, CreateWindowingData returns a record whose context and
surface handles are both null, and InitialiseAPI maps this to
APIHardwareUnsupported; APIInitFailed arises exactly from a null default
display (final conjunct). -/
theorem createWindowingData_all_rejected_hardware_unsupported
    (d : EGLDriver) (rec0 : GLWindowingData) (dpy cfg : Nat)
    (hdisp : d.getDisplay EGL_DEFAULT_DISPLAY = some dpy)
    (hcreate : d.hasCreateContext = true)
    (hchoose : d.hasChooseConfig = true)
    (hpbuf : d.hasCreatePbufferSurface = true)
    (hcc : d.chooseConfig (some dpy) (configAttribs EGL_PBUFFER_BIT) = some cfg)
    (h32 : d.createContext (some dpy) cfg none (verAttribs 3 2) = none)
    (h31 : d.createContext (some dpy) cfg none (verAttribs 3 1) = none)
    (h30 : d.createContext (some dpy) cfg none (verAttribs 3 0) = none)
    (hleg : d.createContext (some dpy) cfg none baseAttribs = none) :
    (CreateWindowingData d (some dpy) none 0).1.egl_ctx = none ∧
    (CreateWindowingData d (some dpy) none 0).1.egl_wnd = none ∧
    (InitialiseAPI d rec0).1 = ReplayStatus.APIHardwareUnsupported ∧
    ∀ (d2 : EGLDriver) (rec2 : GLWindowingData),
      d2.getDisplay EGL_DEFAULT_DISPLAY = none →
      (InitialiseAPI d2 rec2).1 = ReplayStatus.APIInitFailed := by
  have hcr : contextResult d (some dpy) cfg none =
      (none, [Event.createContextCall (verAttribs 3 2),
              Event.createContextCall (verAttribs 3 1),
              Event.createContextCall (verAttribs 3 0),
              Event.createContextCall baseAttribs]) := by
    unfold contextResult
    rw [tryVersionList_allfail d (some dpy) none cfg h32 h31 h30]
    simp [hleg]
  have hcw : (CreateWindowingData d (some dpy) none 0).1 = ⟨some dpy, none, none⟩ := by
    simp [CreateWindowingData, hcc, hcr]
  refine ⟨by rw [hcw], by rw [hcw], ?_, ?_⟩
  · simp [InitialiseAPI, hdisp, MakeContext, hcreate, hchoose, hpbuf, hcw]
  · intro d2 rec2 h2
    simp [InitialiseAPI, h2]

/-- A concrete driver that rejects every context-creation attempt. -/
def rejectDriver : EGLDriver where
  hasMakeCurrent := true
  hasDestroySurface := true
  hasDestroyContext := true
  hasCreateContext := true
  hasChooseConfig := true
  hasCreatePbufferSurface := true
  getDisplay := fun _ => some 1
  chooseConfig := fun _ _ => some 2
  createContext := fun _ _ _ _ => none
  createWindowSurface := fun _ _ w => some (100 + w)
  createPbufferSurface := fun _ _ _ => some 9
  makeCurrentOk := fun _ _ _ _ => true
  querySurface := fun _ _ _ => none

/-- Witness for C6: the theorem evaluated on the all-rejecting driver. -/
theorem createWindowingData_all_rejected_hardware_unsupported_witness :
    rejectDriver.getDisplay EGL_DEFAULT_DISPLAY = some 1 ∧
    rejectDriver.chooseConfig (some 1) (configAttribs EGL_PBUFFER_BIT) = some 2 ∧
    ((CreateWindowingData rejectDriver (some 1) none 0).1.egl_ctx = none ∧
     (CreateWindowingData rejectDriver (some 1) none 0).1.egl_wnd = none ∧
     (InitialiseAPI rejectDriver GLWindowingData.empty).1 =
       ReplayStatus.APIHardwareUnsupported ∧
     ∀ (d2 : EGLDriver) (rec2 : GLWindowingData),
       d2.getDisplay EGL_DEFAULT_DISPLAY = none →
       (InitialiseAPI d2 rec2).1 = ReplayStatus.APIInitFailed) :=
  ⟨by decide, by decide,
   createWindowingData_all_rejected_hardware_unsupported rejectDriver
     GLWindowingData.empty 1 2 (by decide) (by decide) (by decide) (by decide)
     (by decide) (by decide) (by decide) (by decide) (by decide)⟩

/-- Claim C7: when CreateWindowingData obtains a context but every surface
creation fails, the record returned still carries the created context (ctx
non-null, surface null) and the surface failure is reported; the context is
not discarded. -/
theorem createWindowingData_keeps_context_on_surface_failure
    (d : EGLDriver) (dpy share : Option Nat) (window c : Nat)
    (hctx : (CreateWindowingData d dpy share window).1.egl_ctx = some c)
    (hws : ∀ cfg, d.createWindowSurface dpy cfg window = none)
    (hpb : ∀ cfg a, d.createPbufferSurface dpy cfg a = none) :
    (CreateWindowingData d dpy share window).1 = ⟨dpy, some c, none⟩ ∧
    (Event.rdcerr "surface for window" ∈ (CreateWindowingData d dpy share window).2 ∨
     Event.rdcerr "suitable PBuffer" ∈ (CreateWindowingData d dpy share window).2) := by
  obtain ⟨cfg, hcc, hcr⟩ := createWindowingData_inv d dpy share window c hctx
  by_cases hw : window = 0
  · subst hw
    simp only [if_pos rfl] at hcc
    rw [createWindowingData_eq_pbuffer d dpy share cfg c hcc hcr]
    exact ⟨by simp [hpb], Or.inr (by simp [hpb])⟩
  · rw [if_neg hw] at hcc
    rw [createWindowingData_eq_window d dpy share window cfg c hw hcc hcr]
    exact ⟨by simp [hws], Or.inl (by simp [hws])⟩

/-- A concrete driver that accepts the first context attempt (handle 7) but
fails every surface creation. -/
def surfFailDriver : EGLDriver where
  hasMakeCurrent := true
  hasDestroySurface := true
  hasDestroyContext := true
  hasCreateContext := true
  hasChooseConfig := true
  hasCreatePbufferSurface := true
  getDisplay := fun _ => some 1
  chooseConfig := fun _ _ => some 2
  createContext := fun _ _ _ _ => some 7
  createWindowSurface := fun _ _ _ => none
  createPbufferSurface := fun _ _ _ => none
  makeCurrentOk := fun _ _ _ _ => true
  querySurface := fun _ _ _ => none

/-- Witness for C7: the theorem evaluated on the surface-failing driver
with a window target. -/
theorem createWindowingData_keeps_context_on_surface_failure_witness :
    (CreateWindowingData surfFailDriver (some 1) none 5).1.egl_ctx = some 7 ∧
    ((CreateWindowingData surfFailDriver (some 1) none 5).1 = ⟨some 1, some 7, none⟩ ∧
     (Event.rdcerr "surface for window" ∈ (CreateWindowingData surfFailDriver (some 1) none 5).2 ∨
      Event.rdcerr "suitable PBuffer" ∈ (CreateWindowingData surfFailDriver (some 1) none 5).2)) :=
  ⟨by decide,
   createWindowingData_keeps_context_on_surface_failure surfFailDriver (some 1) none 5 7
     (by decide) (fun _ => rfl) (fun _ _ => rfl)⟩

/-- Every event in the version-ladder trace is a CreateContext call. -/
theorem tryVersionList_events (d : EGLDriver) (dpy : Option Nat) (cfg : Nat)
    (share : Option Nat) (vs : List (Nat × Nat)) :
    ∀ e ∈ (tryVersionList d dpy cfg share vs).2, ∃ a, e = Event.createContextCall a := by
  induction vs with
  | nil => simp [tryVersionList]
  | cons v rest ih =>
      intro e he
      cases hc : d.createContext dpy cfg share (verAttribs v.1 v.2) with
      | some c =>
          simp [tryVersionList, hc] at he
          exact ⟨_, he⟩
      | none =>
          simp [tryVersionList, hc] at he
          rcases he with he | he
          · exact ⟨_, he⟩
          · exact ih e he

/-- Every event in the context-creation stage trace is a CreateContext
call. -/
theorem contextResult_events (d : EGLDriver) (dpy : Option Nat) (cfg : Nat)
    (share : Option Nat) :
    ∀ e ∈ (contextResult d dpy cfg share).2, ∃ a, e = Event.createContextCall a := by
  intro e he
  simp only [contextResult] at he
  split at he
  · exact tryVersionList_events d dpy cfg share versions e he
  · simp only [List.mem_append, List.mem_singleton] at he
    rcases he with he | he
    · exact tryVersionList_events d dpy cfg share versions e he
    · exact ⟨_, he⟩

/-- Claim C9: an off-screen creation request (window handle 0) that obtains
a context selects a pbuffer-typed configuration (the config request carries
EGL_SURFACE_TYPE = EGL_PBUFFER_BIT), requests the fixed 32 by 32 pbuffer
surface, and never issues a window-surface call (the only driver call that
consumes a native window handle). -/
theorem createWindowingData_offscreen_pbuffer (d : EGLDriver) (dpy share : Option Nat)
    (c : Nat)
    (hctx : (CreateWindowingData d dpy share 0).1.egl_ctx = some c) :
    Event.chooseConfigCall (configAttribs EGL_PBUFFER_BIT) ∈
      (CreateWindowingData d dpy share 0).2 ∧
    Event.createPbufferSurfaceCall pbAttribs ∈ (CreateWindowingData d dpy share 0).2 ∧
    pbAttribs = [EGL_WIDTH, 32, EGL_HEIGHT, 32, EGL_NONE] ∧
    ∀ w, Event.createWindowSurfaceCall w ∉ (CreateWindowingData d dpy share 0).2 := by
  obtain ⟨cfg, hcc, hcr⟩ := createWindowingData_inv d dpy share 0 c hctx
  simp only [if_pos rfl] at hcc
  rw [createWindowingData_eq_pbuffer d dpy share cfg c hcc hcr]
  refine ⟨by simp, by simp, rfl, ?_⟩
  intro w hmem
  rcases List.mem_cons.mp hmem with h1 | h2
  · exact Event.noConfusion h1
  · rcases List.mem_append.mp h2 with h3 | h4
    · rcases List.mem_append.mp h3 with h5 | h6
      · rcases contextResult_events d dpy cfg share _ h5 with ⟨a, ha⟩
        exact Event.noConfusion ha
      · exact Event.noConfusion (List.mem_singleton.mp h6)
    · revert h4
      split <;> simp

/-- Witness for C9: the theorem evaluated on the surface-failing driver
(which still accepts the context attempt) with no window. -/
theorem createWindowingData_offscreen_pbuffer_witness :
    (CreateWindowingData surfFailDriver (some 1) none 0).1.egl_ctx = some 7 ∧
    (Event.chooseConfigCall (configAttribs EGL_PBUFFER_BIT) ∈
       (CreateWindowingData surfFailDriver (some 1) none 0).2 ∧
     Event.createPbufferSurfaceCall pbAttribs ∈
       (CreateWindowingData surfFailDriver (some 1) none 0).2 ∧
     pbAttribs = [EGL_WIDTH, 32, EGL_HEIGHT, 32, EGL_NONE] ∧
     ∀ w, Event.createWindowSurfaceCall w ∉
       (CreateWindowingData surfFailDriver (some 1) none 0).2) :=
  ⟨by decide,
   createWindowingData_offscreen_pbuffer surfFailDriver (some 1) none 7 (by decide)⟩

/-- Claim C10: when the default display opens but MakeContext yields a
partially-initialized record (context bound, surface null), InitialiseAPI
reports APIHardwareUnsupported, first destroys the partially created
context (a DestroyContext call on it appears in the trace, the
DestroyContext pointer being bound) and zeroes the out record; and in
general, for any driver, a fresh (zeroed) out record never comes back
holding a context or surface when the status is not Succeeded. -/
theorem initialiseAPI_failure_record_empty (d : EGLDriver)
    (rec0 : GLWindowingData) (dpy c : Nat)
    (hdisp : d.getDisplay EGL_DEFAULT_DISPLAY = some dpy)
    (hrc : (MakeContext d ⟨some dpy, none, none⟩).1.egl_ctx = some c)
    (hwnd : (MakeContext d ⟨some dpy, none, none⟩).1.egl_wnd = none)
    (hdc : d.hasDestroyContext = true) :
    (InitialiseAPI d rec0).1 = ReplayStatus.APIHardwareUnsupported ∧
    (InitialiseAPI d rec0).2.1 = GLWindowingData.empty ∧
    Event.destroyContextCall (MakeContext d ⟨some dpy, none, none⟩).1.egl_dpy (some c) ∈
      (InitialiseAPI d rec0).2.2 ∧
    ∀ d2 : EGLDriver,
      (InitialiseAPI d2 GLWindowingData.empty).1 ≠ ReplayStatus.Succeeded →
      ((InitialiseAPI d2 GLWindowingData.empty).2.1.egl_ctx = none ∧
       (InitialiseAPI d2 GLWindowingData.empty).2.1.egl_wnd = none) := by
  have hmain : InitialiseAPI d rec0 =
      (ReplayStatus.APIHardwareUnsupported, GLWindowingData.empty,
       (MakeContext d ⟨some dpy, none, none⟩).2 ++
         [Event.rdcerr "ES replay context required"] ++
         DeleteContext d (MakeContext d ⟨some dpy, none, none⟩).1) := by
    simp [InitialiseAPI, hdisp, hrc, hwnd]
  refine ⟨by rw [hmain], by rw [hmain], ?_, ?_⟩
  · rw [hmain]
    simp [DeleteContext, hrc, hwnd, hdc]
  · intro d2 hne
    cases hd2 : d2.getDisplay EGL_DEFAULT_DISPLAY with
    | none => simp [InitialiseAPI, hd2, GLWindowingData.empty]
    | some dpy2 =>
        by_cases hcase : ((MakeContext d2 ⟨some dpy2, none, none⟩).1.egl_ctx.isNone ||
            (MakeContext d2 ⟨some dpy2, none, none⟩).1.egl_wnd.isNone) = true
        · simp [InitialiseAPI, hd2, hcase, GLWindowingData.empty]
        · exfalso
          apply hne
          simp [InitialiseAPI, hd2, hcase]

/-- Witness for C10: the theorem evaluated on the surface-failing driver,
whose MakeContext produces a context with no surface. -/
theorem initialiseAPI_failure_record_empty_witness :
    surfFailDriver.getDisplay EGL_DEFAULT_DISPLAY = some 1 ∧
    (MakeContext surfFailDriver ⟨some 1, none, none⟩).1.egl_ctx = some 7 ∧
    ((InitialiseAPI surfFailDriver GLWindowingData.empty).1 =
       ReplayStatus.APIHardwareUnsupported ∧
     (InitialiseAPI surfFailDriver GLWindowingData.empty).2.1 = GLWindowingData.empty ∧
     Event.destroyContextCall (MakeContext surfFailDriver ⟨some 1, none, none⟩).1.egl_dpy
       (some 7) ∈ (InitialiseAPI surfFailDriver GLWindowingData.empty).2.2 ∧
     ∀ d2 : EGLDriver,
       (InitialiseAPI d2 GLWindowingData.empty).1 ≠ ReplayStatus.Succeeded →
       ((InitialiseAPI d2 GLWindowingData.empty).2.1.egl_ctx = none ∧
        (InitialiseAPI d2 GLWindowingData.empty).2.1.egl_wnd = none)) :=
  ⟨by decide, by decide,
   initialiseAPI_failure_record_empty surfFailDriver GLWindowingData.empty 1 7
     (by decide) (by decide) (by decide) (by decide)⟩

end EGLPlat
